import Mathlib

/-!
Shallow embedding of the `fast-spatial-join` sources.

Coordinates (Rust `f64`) are modelled as rationals `ℚ`; the flow of every
function verified here is independent of floating-point rounding, and no
claim below depends on a rounded value.  Calls into external crates
(`geo`'s polygon predicates, the `geojson` parser and coordinate
conversions, Rust's `str::parse::<f64>`) are modelled as parameters
gathered in the `ExtLib` structure, so every theorem holds for every
implementation of those libraries.  Everything written by the repository
itself (`polygon_finder.rs`, `geo_index_utils.rs`, `file_processor.rs`) is
translated definition by definition.
-/

namespace SpatialJoin

/-- Planar point with rational coordinates, modelling the `f64` pairs used by
`geo::Point<f64>` and `cgmath::Point2<f64>` in the source. -/
structure Pt where
  x : ℚ
  y : ℚ
deriving DecidableEq, Repr

/-- Axis-aligned rectangle, modelling `spade::BoundingRect<Point2<f64>>`
(stored as its lower and upper corners). -/
structure BoundingRect where
  lower : Pt
  upper : Pt
deriving DecidableEq, Repr

/-- Model of `spade::BoundingRect::from_corners`: componentwise min/max of the
two corners. -/
def BoundingRect.from_corners (a b : Pt) : BoundingRect :=
  ⟨⟨min a.x b.x, min a.y b.y⟩, ⟨max a.x b.x, max a.y b.y⟩⟩

/-- Model of `spade::BoundingRect::contains_point`: inclusive containment on
both axes. -/
def BoundingRect.contains_point (r : BoundingRect) (p : Pt) : Bool :=
  decide (r.lower.x ≤ p.x) && decide (p.x ≤ r.upper.x) &&
    decide (r.lower.y ≤ p.y) && decide (p.y ≤ r.upper.y)

/-- Distance from a value to a closed interval, zero inside it. -/
def axisDist (lo hi v : ℚ) : ℚ := max (lo - v) (max 0 (v - hi))

/-- Model of `spade::BoundingRect::distance2` (used through
`IndexablePolygon::distance2`): squared euclidean distance from the point to
the rectangle. -/
def BoundingRect.distance2 (r : BoundingRect) (p : Pt) : ℚ :=
  axisDist r.lower.x r.upper.x p.x ^ 2 + axisDist r.lower.y r.upper.y p.y ^ 2

/-- Rectangle with `min`/`max` corners, modelling `geo_types::Rect<f64>`. -/
structure GeoRect where
  min : Pt
  max : Pt
deriving DecidableEq, Repr

/-- Polygon carrying an exterior ring and interior (hole) rings, modelling
`geo::Polygon<f64>` as its lists of coordinates. -/
structure PolygonG where
  exterior : List Pt
  interiors : List (List Pt)
deriving DecidableEq, Repr

/-- Model of the `Area` enum of `polygon_finder.rs`. -/
inductive Area where
  | polygon (pg : PolygonG)
  | multiPolygon (pgs : List PolygonG)
  | point (p : Pt)
deriving DecidableEq, Repr

/-- Model of `geojson::Error` (external crate); the claims only need it as an
opaque error token. -/
inductive GeoJsonError where
  | malformedJson
  | otherError
deriving DecidableEq, Repr

/-- Model of an I/O error (`std::io::Error`); opaque. -/
inductive IoErr where
  | ioError
deriving DecidableEq, Repr

/-- Model of `serde_json::Value` as seen by `IndexablePolygon::new`: strings
and numbers are accepted as property values, everything else is rejected.  A
number is carried as its canonical decimal string, which is all
`v_num.to_string()` ever extracts from it. -/
inductive JsonVal where
  | str (s : String)
  | num (lit : String)
  | otherVal
deriving DecidableEq, Repr

/-- Model of `geojson::Value` restricted to what `IndexablePolygon::new`
inspects: raw coordinate nestings for the three accepted variants and a
catch-all for every other geometry type. -/
inductive GeomValue where
  | polygonCoords (coords : List (List (List ℚ)))
  | multiPolygonCoords (coords : List (List (List (List ℚ))))
  | pointCoords (coords : List ℚ)
  | otherGeom
deriving DecidableEq, Repr

/-- Model of `geojson::Geometry`. -/
structure Geometry where
  value : GeomValue
deriving DecidableEq, Repr

/-- Model of `geojson::Feature`: an optional geometry and an optional
property object (a key-ordered list of entries, as iterated by
`serde_json::map::Map`). -/
structure Feature where
  geometry : Option Geometry
  properties : Option (List (String × JsonVal))
deriving DecidableEq, Repr

/-- Model of a parsed `geojson::GeoJson` document: a feature collection or
any other (feature / bare geometry) document. -/
inductive GeoJsonAst where
  | featureCollection (features : List Feature)
  | otherDocument
deriving DecidableEq, Repr

/-- Interface to the external crates used by the source.  Each field models
one external function; theorems quantify over every implementation.
`polyContains`/`multiPolyContains` model `geo`'s `Contains` impls,
`polyCentroid`/`multiPolyCentroid` the `Centroid` impls, the `tryInto*`
fields the `geojson → geo_types` conversions, `parseDouble` Rust's
`str::parse::<f64>` and `parseGeoJson` `str::parse::<GeoJson>`. -/
structure ExtLib where
  polyContains : PolygonG → Pt → Bool
  multiPolyContains : List PolygonG → Pt → Bool
  polyCentroid : PolygonG → Option Pt
  multiPolyCentroid : List PolygonG → Option Pt
  tryIntoPolygon : List (List (List ℚ)) → Except GeoJsonError PolygonG
  tryIntoMultiPolygon : List (List (List (List ℚ))) → Except GeoJsonError (List PolygonG)
  tryIntoPoint : List ℚ → Except GeoJsonError Pt
  parseDouble : String → Option ℚ
  parseGeoJson : String → Except GeoJsonError GeoJsonAst

/-- Smallest rectangle containing a list of points (`None` when the list is
empty), modelling `geo`'s `bounding_rect` over a ring's points. -/
def boundingRectOfPoints : List Pt → Option GeoRect
  | [] => none
  | p :: ps =>
    some (ps.foldl
      (fun r q => ⟨⟨min r.min.x q.x, min r.min.y q.y⟩, ⟨max r.max.x q.x, max r.max.y q.y⟩⟩)
      ⟨p, p⟩)

/-- Model of `Area::mbr` in `polygon_finder.rs`: bounding rectangle of the
exterior ring(s), or a degenerate rectangle for a point. -/
def Area.mbr : Area → Option GeoRect
  | .polygon pg => boundingRectOfPoints pg.exterior
  | .multiPolygon pgs => boundingRectOfPoints (pgs.flatMap (fun pg => pg.exterior))
  | .point p => some ⟨p, p⟩

/-- Model of `Area::centroid` in `polygon_finder.rs`; the polygon cases call
the external `geo` centroid. -/
def Area.centroid (E : ExtLib) : Area → Option Pt
  | .polygon pg => E.polyCentroid pg
  | .multiPolygon pgs => E.multiPolyCentroid pgs
  | .point p => some p

/-- Model of `Area::contains_exact` in `polygon_finder.rs`: the exact
geometric predicate; the point case is coordinate equality, the polygon
cases call the external `geo` containment. -/
def Area.contains_exact (E : ExtLib) : Area → Pt → Bool
  | .polygon pg, pt => E.polyContains pg pt
  | .multiPolygon pgs, pt => E.multiPolyContains pgs pt
  | .point p, pt => decide (p.x = pt.x) && decide (p.y = pt.y)

/-- Model of `PropertyMap = HashMap<String, String>`: an association list,
queried with `List.lookup`. -/
abbrev PropertyMap := List (String × String)

/-- Model of the `IndexablePolygon` struct of `polygon_finder.rs`. -/
structure IndexablePolygon where
  bbox : BoundingRect
  centroid : Pt
  area : Area
  properties : PropertyMap
deriving DecidableEq, Repr

/-- Model of the `FindResult` struct of `geo_finder_types.rs`. -/
structure FindResult where
  props : PropertyMap
  distance : ℚ
deriving DecidableEq, Repr

/-- Result of running code that can panic: Rust `.unwrap()` on a failure
value becomes `.panic`. -/
inductive PanicOr (α : Type) where
  | panic
  | ok (val : α)
deriving DecidableEq, Repr

/-- Model of the `PolygonFinderError` enum of `polygon_finder.rs`. -/
inductive PolygonFinderError where
  | Parse (e : GeoJsonError)
  | InvalidProperty (v : JsonVal)
  | InvalidFeature
  | FeatureCollectionNotFound
  | GeometryNotFound
  | InvalidPolygon (e : GeoJsonError)
  | InvalidMultiPolygon (e : GeoJsonError)
  | InvalidPoint (e : GeoJsonError)
  | CannotCalculateDistance
  | Io (e : IoErr)
deriving DecidableEq, Repr

/-- Property-map construction loop of `IndexablePolygon::new`: strings are
kept, numbers are converted to their decimal string, anything else aborts
with `InvalidProperty`. -/
def propsFromJson : List (String × JsonVal) → Except PolygonFinderError PropertyMap
  | [] => .ok []
  | (k, v) :: rest =>
    match v with
    | .str s => (propsFromJson rest).map (fun ps => (k, s) :: ps)
    | .num lit => (propsFromJson rest).map (fun ps => (k, lit) :: ps)
    | .otherVal => .error (.InvalidProperty .otherVal)

/-- Model of `IndexablePolygon::new`.  The final `area.centroid().unwrap()`
of the source is modelled by `.panic` when the centroid is undefined. -/
def IndexablePolygon.new (E : ExtLib) (feature : Feature) :
    PanicOr (Except PolygonFinderError IndexablePolygon) :=
  match feature.geometry with
  | none => .ok (.error .GeometryNotFound)
  | some geometry =>
    let areaResult : Except PolygonFinderError Area :=
      match geometry.value with
      | .polygonCoords c =>
        match E.tryIntoPolygon c with
        | .error e => .error (.InvalidPolygon e)
        | .ok pg => .ok (.polygon pg)
      | .multiPolygonCoords c =>
        match E.tryIntoMultiPolygon c with
        | .error e => .error (.InvalidMultiPolygon e)
        | .ok pgs => .ok (.multiPolygon pgs)
      | .pointCoords c =>
        match E.tryIntoPoint c with
        | .error e => .error (.InvalidPoint e)
        | .ok p => .ok (.point p)
      | .otherGeom => .error .InvalidFeature
    match areaResult with
    | .error e => .ok (.error e)
    | .ok area =>
      match area.mbr with
      | none => .ok (.error .GeometryNotFound)
      | some rect_bbox =>
        let bbox := BoundingRect.from_corners rect_bbox.min rect_bbox.max
        match propsFromJson (feature.properties.getD []) with
        | .error e => .ok (.error e)
        | .ok properties =>
          match area.centroid E with
          | none => .panic
          | some c => .ok (.ok ⟨bbox, c, area, properties⟩)

/-- Model of the `PolygonFinder` struct: the R-tree is modelled by the list
of features it indexes (the tree shape only affects query cost). -/
structure PolygonFinder where
  tree : List IndexablePolygon
  neighbors_tests : Nat
deriving DecidableEq, Repr

/-- Sequential `IndexablePolygon::new` over the features of a collection,
stopping at the first error, modelling `collect::<Result<Vec<_>, _>>`. -/
def buildPolygons (E : ExtLib) :
    List Feature → PanicOr (Except PolygonFinderError (List IndexablePolygon))
  | [] => .ok (.ok [])
  | f :: rest =>
    match IndexablePolygon.new E f with
    | .panic => .panic
    | .ok (.error e) => .ok (.error e)
    | .ok (.ok ip) =>
      match buildPolygons E rest with
      | .panic => .panic
      | .ok (.error e) => .ok (.error e)
      | .ok (.ok ips) => .ok (.ok (ip :: ips))

/-- Model of `PolygonFinder::new_from_string` after the external GeoJSON
parse: requires a feature collection, builds every feature, bulk-loads the
tree and fixes `neighbors_tests` to the literal `10` of the source. -/
def PolygonFinder.new_from_geojson (E : ExtLib) (geo_json : GeoJsonAst) :
    PanicOr (Except PolygonFinderError PolygonFinder) :=
  match geo_json with
  | .otherDocument => .ok (.error .FeatureCollectionNotFound)
  | .featureCollection features =>
    match buildPolygons E features with
    | .panic => .panic
    | .ok (.error e) => .ok (.error e)
    | .ok (.ok polygons) => .ok (.ok { tree := polygons, neighbors_tests := 10 })

/-- Model of `PolygonFinder::new_from_string`: parse (external), wrapping a
parse failure in `PolygonFinderError::Parse`, then build. -/
def PolygonFinder.new_from_string (E : ExtLib) (geo_json_str : String) :
    PanicOr (Except PolygonFinderError PolygonFinder) :=
  match E.parseGeoJson geo_json_str with
  | .error e => .ok (.error (.Parse e))
  | .ok gj => PolygonFinder.new_from_geojson E gj

/-- Model of `PolygonFinder::new`.  The file system is a parameter: `fsOpen`
returns the `File::open` outcome and, when the open succeeds, the
`read_to_string` outcome.  The source calls `.unwrap()` on the open (a
panic on failure) and discards the read result with `let _ = ...`, leaving
the freshly created empty string untouched on a read failure. -/
def PolygonFinder.new (E : ExtLib)
    (fsOpen : String → Except IoErr (Except IoErr String)) (geojson_path : String) :
    PanicOr (Except PolygonFinderError PolygonFinder) :=
  match fsOpen geojson_path with
  | .error _ => .panic
  | .ok readResult =>
    let file_contents :=
      match readResult with
      | .ok s => s
      | .error _ => ""
    PolygonFinder.new_from_string E file_contents

/-- Comparison of two indexed features by squared distance of their bounding
rectangles to a query point; the order in which `nearest_n_neighbors`
yields candidates. -/
def distLe (p : Pt) (a b : IndexablePolygon) : Prop :=
  a.bbox.distance2 p ≤ b.bbox.distance2 p

instance (p : Pt) : DecidableRel (distLe p) := fun a b =>
  inferInstanceAs (Decidable (a.bbox.distance2 p ≤ b.bbox.distance2 p))

instance (p : Pt) : IsTotal IndexablePolygon (distLe p) :=
  ⟨fun _ _ => le_total _ _⟩

instance (p : Pt) : IsTrans IndexablePolygon (distLe p) :=
  ⟨fun _ _ _ => le_trans⟩

/-- Model of `spade::RTree::nearest_n_neighbors`: the `k` indexed features
nearest to `p` by `distance2`, in ascending distance order. -/
def nearest_n_neighbors (tree : List IndexablePolygon) (p : Pt) (k : Nat) :
    List IndexablePolygon :=
  (List.insertionSort (distLe p) tree).take k

/-- Candidate loop of `PolygonFinder::find_by_point`: on the first candidate
whose bounding rectangle misses the point the whole search answers `none`;
a candidate passing the exact test answers its properties with distance
`0.0`. -/
def findLoop (E : ExtLib) (point : Pt) : List IndexablePolygon → Option FindResult
  | [] => none
  | result :: rest =>
    if !result.bbox.contains_point point then none
    else if result.area.contains_exact E point then
      some ⟨result.properties, 0⟩
    else findLoop E point rest

/-- Model of `PolygonFinder::find_by_point`. -/
def PolygonFinder.find_by_point (E : ExtLib) (finder : PolygonFinder) (point : Pt) :
    Option FindResult :=
  findLoop E point (nearest_n_neighbors finder.tree point finder.neighbors_tests)

/-- Model of `PolygonFinder::find`: note the `x = longitude`, `y = latitude`
convention of the source. -/
def PolygonFinder.find (E : ExtLib) (finder : PolygonFinder) (latitude longitude : ℚ) :
    Option FindResult :=
  finder.find_by_point E ⟨longitude, latitude⟩

/-!
Index codec.  `geo_index_utils.rs` persists a `PolygonFinder` with
`bincode::serialize_into` over the derived `serde::Serialize` instances and
restores it with `bincode::deserialize_from`.  The derived format writes the
two struct fields in order, every sequence as its length followed by its
elements, every enum as a variant tag followed by its payload, and every
scalar as itself.  The byte stream is modelled as a list of scalar tokens
(a machine float or string token stands for its bit-exact byte encoding).
-/

/-- Scalar token of the serialized stream. -/
inductive Tok where
  | nat (n : Nat)
  | rat (q : ℚ)
  | str (s : String)
deriving DecidableEq, Repr

def encNat (n : Nat) : List Tok := [.nat n]

def encRat (q : ℚ) : List Tok := [.rat q]

def encStr (s : String) : List Tok := [.str s]

def encPt (p : Pt) : List Tok := [.rat p.x, .rat p.y]

def encBoundingRect (r : BoundingRect) : List Tok := encPt r.lower ++ encPt r.upper

/-- Length-prefixed sequence, as bincode writes a `Vec` or `HashMap`. -/
def encList (enc : α → List Tok) (xs : List α) : List Tok :=
  Tok.nat xs.length :: xs.flatMap enc

def encPair (kv : String × String) : List Tok := [.str kv.1, .str kv.2]

def encRing (ring : List Pt) : List Tok := encList encPt ring

def encPolygonG (pg : PolygonG) : List Tok :=
  encRing pg.exterior ++ encList encRing pg.interiors

/-- Tagged enum encoding of `Area`. -/
def encArea : Area → List Tok
  | .polygon pg => Tok.nat 0 :: encPolygonG pg
  | .multiPolygon pgs => Tok.nat 1 :: encList encPolygonG pgs
  | .point p => Tok.nat 2 :: encPt p

def encIndexable (ip : IndexablePolygon) : List Tok :=
  encBoundingRect ip.bbox ++ encPt ip.centroid ++ encArea ip.area ++
    encList encPair ip.properties

/-- Serialized form of a `PolygonFinder`: the tree's features followed by
`neighbors_tests`, the two fields of the struct in declaration order. -/
def encodeFinder (finder : PolygonFinder) : List Tok :=
  encList encIndexable finder.tree ++ encNat finder.neighbors_tests

def decNat : List Tok → Option (Nat × List Tok)
  | Tok.nat n :: ts => some (n, ts)
  | _ => none

def decRat : List Tok → Option (ℚ × List Tok)
  | Tok.rat q :: ts => some (q, ts)
  | _ => none

def decStr : List Tok → Option (String × List Tok)
  | Tok.str s :: ts => some (s, ts)
  | _ => none

def decPt (ts : List Tok) : Option (Pt × List Tok) :=
  match decRat ts with
  | none => none
  | some (x, ts1) =>
    match decRat ts1 with
    | none => none
    | some (y, ts2) => some (⟨x, y⟩, ts2)

def decBoundingRect (ts : List Tok) : Option (BoundingRect × List Tok) :=
  match decPt ts with
  | none => none
  | some (lo, ts1) =>
    match decPt ts1 with
    | none => none
    | some (hi, ts2) => some (⟨lo, hi⟩, ts2)

/-- Decode exactly `n` consecutive elements. -/
def decCount (dec : List Tok → Option (α × List Tok)) :
    Nat → List Tok → Option (List α × List Tok)
  | 0, ts => some ([], ts)
  | n + 1, ts =>
    match dec ts with
    | none => none
    | some (a, ts1) =>
      match decCount dec n ts1 with
      | none => none
      | some (items, ts2) => some (a :: items, ts2)

/-- Decode a length-prefixed sequence. -/
def decList (dec : List Tok → Option (α × List Tok)) (ts : List Tok) :
    Option (List α × List Tok) :=
  match decNat ts with
  | none => none
  | some (n, ts1) => decCount dec n ts1

def decPair (ts : List Tok) : Option ((String × String) × List Tok) :=
  match decStr ts with
  | none => none
  | some (k, ts1) =>
    match decStr ts1 with
    | none => none
    | some (v, ts2) => some ((k, v), ts2)

def decRing : List Tok → Option (List Pt × List Tok) := decList decPt

def decPolygonG (ts : List Tok) : Option (PolygonG × List Tok) :=
  match decRing ts with
  | none => none
  | some (ext, ts1) =>
    match decList decRing ts1 with
    | none => none
    | some (ints, ts2) => some (⟨ext, ints⟩, ts2)

def decArea (ts : List Tok) : Option (Area × List Tok) :=
  match ts with
  | Tok.nat 0 :: ts1 =>
    match decPolygonG ts1 with
    | none => none
    | some (pg, ts2) => some (.polygon pg, ts2)
  | Tok.nat 1 :: ts1 =>
    match decList decPolygonG ts1 with
    | none => none
    | some (pgs, ts2) => some (.multiPolygon pgs, ts2)
  | Tok.nat 2 :: ts1 =>
    match decPt ts1 with
    | none => none
    | some (p, ts2) => some (.point p, ts2)
  | _ => none

def decIndexable (ts : List Tok) : Option (IndexablePolygon × List Tok) :=
  match decBoundingRect ts with
  | none => none
  | some (bbox, ts1) =>
    match decPt ts1 with
    | none => none
    | some (c, ts2) =>
      match decArea ts2 with
      | none => none
      | some (area, ts3) =>
        match decList decPair ts3 with
        | none => none
        | some (props, ts4) => some (⟨bbox, c, area, props⟩, ts4)

/-- Deserialization of a `PolygonFinder`, inverse of `encodeFinder`. -/
def decodeFinder (ts : List Tok) : Option (PolygonFinder × List Tok) :=
  match decList decIndexable ts with
  | none => none
  | some (tree, ts1) =>
    match decNat ts1 with
    | none => none
    | some (k, ts2) => some (⟨tree, k⟩, ts2)

/-- Model of `save_geo_index` in `geo_index_utils.rs`.  `fsCreate` models
`File::create`, returning on success a writer that models
`bincode::serialize_into` on the buffered file.  Both calls are followed by
`.unwrap()` in the source, so both failures are panics. -/
def save_geo_index (fsCreate : String → Except IoErr (List Tok → Except IoErr Unit))
    (finder : PolygonFinder) (output_file : String) : PanicOr Unit :=
  match fsCreate output_file with
  | .error _ => .panic
  | .ok writeFn =>
    match writeFn (encodeFinder finder) with
    | .error _ => .panic
    | .ok _ => .ok ()

/-!
Join engine (`file_processor.rs`).  The delimited input stream is modelled
after the CSV reader's output: a list of per-row results, each either a
parse failure or the row's list of fields.  The output sink is modelled by
`writeOk`, telling for each successive `write_record` call whether it
succeeds; a failed data-row write breaks the loop as in the source.
-/

/-- Model of the `ProcessStats` struct. -/
structure ProcessStats where
  total_lines : Nat
  error_lines : Nat
deriving DecidableEq, Repr

/-- Missing-property sentinel of `file_processor.rs`. -/
def DEFAULT_PROPERTY_VALUE : String := "-"

/-- Model of `fill_error_row`: one empty field per requested property, then
the literal `"error"` status field, appended unconditionally. -/
def fill_error_row (properties : List String) : List String :=
  List.replicate properties.length "" ++ ["error"]

/-- Per-row body of the join loop in `spatial_polygons_join`, for a row that
was read successfully: returns the record to write and whether
`error_lines` is incremented for this row. -/
def processRecord (E : ExtLib) (geo_finder : PolygonFinder) (properties : List String)
    (latitude_idx longitude_idx : Nat) (write_status : Bool) (record : List String) :
    List String × Bool :=
  let latitude_opt := (record.get? latitude_idx).bind E.parseDouble
  let longitude_opt := (record.get? longitude_idx).bind E.parseDouble
  match latitude_opt, longitude_opt with
  | some latitude, some longitude =>
    match geo_finder.find E latitude longitude with
    | some find_result =>
      (record
        ++ properties.map
          (fun prop => (List.lookup prop find_result.props).getD DEFAULT_PROPERTY_VALUE)
        ++ (if write_status then ["success"] else []), false)
    | none =>
      (record ++ (if write_status then fill_error_row properties else []), true)
  | _, _ => (record ++ fill_error_row properties, true)

/-- Data-row loop of `spatial_polygons_join`.  Returns the stats, the rows
written, and the unconsumed remainder of the input (nonempty only when a
data-row write failed and the loop broke early).  `w` is the index of the
next `write_record` call. -/
def joinLoop (E : ExtLib) (geo_finder : PolygonFinder) (properties : List String)
    (latitude_idx longitude_idx : Nat) (write_status : Bool) (writeOk : Nat → Bool) :
    Nat → List (Except Unit (List String)) →
    ProcessStats × List (List String) × List (Except Unit (List String))
  | _, [] => (⟨0, 0⟩, [], [])
  | w, .error _ :: rest =>
    let r := joinLoop E geo_finder properties latitude_idx longitude_idx
      write_status writeOk w rest
    (⟨r.1.total_lines + 1, r.1.error_lines + 1⟩, r.2.1, r.2.2)
  | w, .ok record :: rest =>
    let pr := processRecord E geo_finder properties latitude_idx longitude_idx
      write_status record
    if writeOk w then
      let r := joinLoop E geo_finder properties latitude_idx longitude_idx
        write_status writeOk (w + 1) rest
      (⟨r.1.total_lines + 1, r.1.error_lines + (if pr.2 then 1 else 0)⟩,
        pr.1 :: r.2.1, r.2.2)
    else
      (⟨1, if pr.2 then 1 else 0⟩, [], rest)

/-- Model of `spatial_polygons_join`.  When `no_header` is false the first
row, if present and well-formed, is written back with the property names
and optional `"status"` column appended (the write result is ignored with
`.ok()`); a missing or unreadable first row is silently skipped. -/
def spatial_polygons_join (E : ExtLib) (geo_finder : PolygonFinder)
    (input : List (Except Unit (List String))) (properties : List String)
    (latitude_idx longitude_idx : Nat) (no_header : Bool) (write_status : Bool)
    (writeOk : Nat → Bool) :
    ProcessStats × List (List String) × List (Except Unit (List String)) :=
  match no_header, input with
  | false, .ok header :: rest =>
    let new_header := header ++ properties ++ (if write_status then ["status"] else [])
    let r := joinLoop E geo_finder properties latitude_idx longitude_idx
      write_status writeOk 1 rest
    (r.1, (if writeOk 0 then [new_header] else []) ++ r.2.1, r.2.2)
  | false, .error _ :: rest =>
    joinLoop E geo_finder properties latitude_idx longitude_idx write_status writeOk 0 rest
  | false, [] => (⟨0, 0⟩, [], [])
  | true, inp =>
    joinLoop E geo_finder properties latitude_idx longitude_idx write_status writeOk 0 inp

/-- Number of non-header data rows in the input: all rows, minus the first
one when the run is configured with a header and the input is nonempty. -/
def dataRowCount (no_header : Bool) (input : List (Except Unit (List String))) : Nat :=
  match no_header, input with
  | false, _ :: rest => rest.length
  | false, [] => 0
  | true, inp => inp.length

/-!
Helper lemmas about the candidate loop of `find_by_point`.
-/

theorem findLoop_some (E : ExtLib) (p : Pt) (l : List IndexablePolygon) (res : FindResult)
    (h : findLoop E p l = some res) :
    res.distance = 0 ∧
      ∃ ip ∈ l, res.props = ip.properties ∧ ip.area.contains_exact E p = true := by
  induction l with
  | nil => simp [findLoop] at h
  | cons r rest ih =>
    rw [findLoop] at h
    by_cases hb : r.bbox.contains_point p = true
    · by_cases he : r.area.contains_exact E p = true
      · simp only [hb, he, Bool.not_true, Bool.false_eq_true, if_false, if_true,
          Option.some.injEq] at h
        subst h
        exact ⟨rfl, r, by simp, rfl, he⟩
      · simp only [hb, he, Bool.not_true, Bool.false_eq_true, if_false] at h
        obtain ⟨hd, ip, hmem, hprops, hex⟩ := ih h
        exact ⟨hd, ip, by simp [hmem], hprops, hex⟩
    · simp [hb] at h

theorem findLoop_none_of_no_hit (E : ExtLib) (p : Pt) (l : List IndexablePolygon)
    (h : ∀ ip ∈ l, ip.area.contains_exact E p = false) : findLoop E p l = none := by
  induction l with
  | nil => rfl
  | cons r rest ih =>
    rw [findLoop]
    by_cases hb : r.bbox.contains_point p = true
    · have hr := h r (by simp)
      simp only [hb, hr, Bool.not_true, Bool.false_eq_true, if_false]
      exact ih (fun ip hip => h ip (by simp [hip]))
    · simp [hb]

theorem findLoop_passes_checked (E : ExtLib) (p : Pt) (pre : List IndexablePolygon)
    (hpre : ∀ f ∈ pre, f.bbox.contains_point p = true ∧ f.area.contains_exact E p = false)
    (l : List IndexablePolygon) : findLoop E p (pre ++ l) = findLoop E p l := by
  induction pre with
  | nil => rfl
  | cons r rest ih =>
    have hr := hpre r (by simp)
    rw [List.cons_append, findLoop]
    simp only [hr.1, hr.2, Bool.not_true, Bool.false_eq_true, if_false]
    exact ih (fun f hf => hpre f (by simp [hf]))

theorem mem_of_mem_nearest (tree : List IndexablePolygon) (p : Pt) (k : Nat)
    (ip : IndexablePolygon) (h : ip ∈ nearest_n_neighbors tree p k) : ip ∈ tree := by
  have h1 : ip ∈ List.insertionSort (distLe p) tree :=
    List.mem_of_mem_take h
  exact (List.mem_insertionSort (distLe p)).mp h1

/-!
Concrete fixtures for witness computations.
-/

/-- Trivial instantiation of the external libraries, used by concrete
witness computations. -/
def extLib0 : ExtLib where
  polyContains := fun _ _ => false
  multiPolyContains := fun _ _ => false
  polyCentroid := fun _ => none
  multiPolyCentroid := fun _ => none
  tryIntoPolygon := fun _ => .error .malformedJson
  tryIntoMultiPolygon := fun _ => .error .malformedJson
  tryIntoPoint := fun c =>
    match c with
    | x :: y :: _ => .ok ⟨x, y⟩
    | _ => .error .malformedJson
  parseDouble := fun _ => none
  parseGeoJson := fun _ => .error .malformedJson

/-- Variant of `extLib0` whose `parseDouble` always reads `0` and whose
GeoJSON parser always yields an empty feature collection. -/
def extLib1 : ExtLib :=
  { extLib0 with
    parseDouble := fun _ => some 0
    parseGeoJson := fun _ => .ok (.featureCollection []) }

/-- Feature fixture: the point `(1, 2)` with one property. -/
def ipUnit : IndexablePolygon where
  bbox := BoundingRect.from_corners ⟨1, 2⟩ ⟨1, 2⟩
  centroid := ⟨1, 2⟩
  area := .point ⟨1, 2⟩
  properties := [("name", "unit")]

/-- Feature fixture: the unit square, whose bounding rectangle misses the
query point `(5, 5)` used in witnesses. -/
def ipBox : IndexablePolygon where
  bbox := ⟨⟨0, 0⟩, ⟨1, 1⟩⟩
  centroid := ⟨0, 0⟩
  area := .polygon ⟨[⟨0, 0⟩, ⟨1, 0⟩, ⟨1, 1⟩, ⟨0, 1⟩, ⟨0, 0⟩], []⟩
  properties := [("name", "unit")]

def finderUnit : PolygonFinder := ⟨[ipUnit], 10⟩

def finderBox : PolygonFinder := ⟨[ipBox], 10⟩

def finderEmpty : PolygonFinder := ⟨[], 10⟩

/-- C1: for every point `p` and every index, if `find_by_point` returns a
result then the returned feature's geometry exactly contains `p`
(`contains_exact` is true) and the distance in the result equals `0.0`. -/
theorem find_hit_contains_exact (E : ExtLib) (finder : PolygonFinder) (p : Pt)
    (res : FindResult) (h : finder.find_by_point E p = some res) :
    res.distance = 0 ∧
      ∃ ip ∈ finder.tree, res.props = ip.properties ∧ ip.area.contains_exact E p = true := by
  obtain ⟨hd, ip, hmem, hprops, hex⟩ := findLoop_some E p _ res h
  exact ⟨hd, ip, mem_of_mem_nearest _ _ _ _ hmem, hprops, hex⟩

/-- Witness for C1: a hit on the concrete one-feature index. -/
theorem find_hit_contains_exact_witness :
    finderUnit.find_by_point extLib0 ⟨1, 2⟩ = some ⟨[("name", "unit")], 0⟩ ∧
      ((⟨[("name", "unit")], 0⟩ : FindResult).distance = 0 ∧
        ∃ ip ∈ finderUnit.tree,
          ([("name", "unit")] : PropertyMap) = ip.properties ∧
            ip.area.contains_exact extLib0 ⟨1, 2⟩ = true) := by
  have hfind : finderUnit.find_by_point extLib0 ⟨1, 2⟩ = some ⟨[("name", "unit")], 0⟩ := by
    decide
  exact ⟨hfind, find_hit_contains_exact extLib0 finderUnit ⟨1, 2⟩ _ hfind⟩

/-- C2: for every point `p`, `find_by_point` iterates the `K` nearest
candidates in ascending MBR-distance order; whenever the iteration reaches
a first candidate whose MBR does not contain `p` (every earlier candidate's
MBR contained `p` without an exact hit), it returns `none` immediately,
with a result independent of every later candidate; and whenever the
candidates are exhausted without an exact containment hit — in particular
when every candidate's MBR contains `p` and the loop runs to the end — the
result is `none`. -/
theorem find_early_out (E : ExtLib) (finder : PolygonFinder) (p : Pt) :
    List.Sorted (distLe p) (nearest_n_neighbors finder.tree p finder.neighbors_tests) ∧
      (∀ pre c post,
        nearest_n_neighbors finder.tree p finder.neighbors_tests = pre ++ c :: post →
        (∀ f ∈ pre, f.bbox.contains_point p = true ∧ f.area.contains_exact E p = false) →
        c.bbox.contains_point p = false →
        (∀ post2, findLoop E p (pre ++ c :: post2) = none) ∧
          finder.find_by_point E p = none) ∧
      ((∀ ip ∈ nearest_n_neighbors finder.tree p finder.neighbors_tests,
          ip.area.contains_exact E p = false) →
        finder.find_by_point E p = none) := by
  refine ⟨(List.sorted_insertionSort (distLe p) finder.tree).sublist
    (List.take_sublist finder.neighbors_tests _), ?_, ?_⟩
  · intro pre c post hsplit hpre hc
    have hloop : ∀ post2, findLoop E p (pre ++ c :: post2) = none := by
      intro post2
      rw [findLoop_passes_checked E p pre hpre, findLoop]
      simp [hc]
    refine ⟨hloop, ?_⟩
    rw [PolygonFinder.find_by_point, hsplit]
    exact hloop post
  · intro hall
    exact findLoop_none_of_no_hit E p _ hall

/-- Witness for C2, exercising both nested implications at concrete
inputs: the sole candidate's rectangle misses `(5, 5)`, so the search
early-outs to `none`; and at `(0, 0)` the candidate's rectangle contains
the point but the exact test fails, so the loop runs to the end of the
candidates and returns `none`. -/
theorem find_early_out_witness :
    finderBox.find_by_point extLib0 ⟨5, 5⟩ = none ∧
      finderBox.find_by_point extLib0 ⟨0, 0⟩ = none := by
  constructor
  · exact ((find_early_out extLib0 finderBox ⟨5, 5⟩).2.1 [] ipBox [] (by decide) (by simp)
      (by decide)).2
  · exact (find_early_out extLib0 finderBox ⟨0, 0⟩).2.2 (by decide)

/-!
Round-trip lemmas for the index codec.
-/

/-- Statement that a decoder exactly inverts an encoder, for every
continuation of the stream. -/
def EncDec (enc : α → List Tok) (dec : List Tok → Option (α × List Tok)) : Prop :=
  ∀ (a : α) (r : List Tok), dec (enc a ++ r) = some (a, r)

theorem encDec_nat : EncDec encNat decNat := fun _ _ => rfl

theorem encDec_pt : EncDec encPt decPt := fun _ _ => rfl

theorem encDec_boundingRect : EncDec encBoundingRect decBoundingRect := fun _ _ => rfl

theorem encDec_pair : EncDec encPair decPair := fun _ _ => rfl

theorem decCount_encode {α : Type} (enc : α → List Tok)
    (dec : List Tok → Option (α × List Tok)) (h : EncDec enc dec)
    (xs : List α) (r : List Tok) :
    decCount dec xs.length (xs.flatMap enc ++ r) = some (xs, r) := by
  induction xs generalizing r with
  | nil => rfl
  | cons a tl ih =>
    have hassoc : (a :: tl).flatMap enc ++ r = enc a ++ (tl.flatMap enc ++ r) := by
      simp [List.append_assoc]
    rw [List.length_cons, hassoc]
    simp only [decCount, h a (tl.flatMap enc ++ r), ih]

theorem encDec_list {α : Type} (enc : α → List Tok)
    (dec : List Tok → Option (α × List Tok)) (h : EncDec enc dec) :
    EncDec (encList enc) (decList dec) := by
  intro xs r
  show decList dec (Tok.nat xs.length :: (xs.flatMap enc ++ r)) = some (xs, r)
  simp only [decList, decNat]
  exact decCount_encode enc dec h xs r

theorem encDec_ring : EncDec encRing decRing :=
  encDec_list encPt decPt encDec_pt

theorem encDec_polygonG : EncDec encPolygonG decPolygonG := by
  intro pg r
  have h1 : encPolygonG pg ++ r =
      encRing pg.exterior ++ (encList encRing pg.interiors ++ r) := by
    simp [encPolygonG, List.append_assoc]
  rw [h1]
  simp only [decPolygonG, encDec_ring pg.exterior _,
    encDec_list encRing decRing encDec_ring pg.interiors r]

theorem encDec_area : EncDec encArea decArea := by
  intro a r
  cases a with
  | polygon pg =>
    show decArea (Tok.nat 0 :: (encPolygonG pg ++ r)) = some (.polygon pg, r)
    simp only [decArea, encDec_polygonG pg r]
  | multiPolygon pgs =>
    show decArea (Tok.nat 1 :: (encList encPolygonG pgs ++ r)) = some (.multiPolygon pgs, r)
    simp only [decArea, encDec_list encPolygonG decPolygonG encDec_polygonG pgs r]
  | point p =>
    show decArea (Tok.nat 2 :: (encPt p ++ r)) = some (.point p, r)
    simp only [decArea, encDec_pt p r]

theorem encDec_indexable : EncDec encIndexable decIndexable := by
  intro ip r
  have h1 : encIndexable ip ++ r =
      encBoundingRect ip.bbox ++ (encPt ip.centroid ++ (encArea ip.area ++
        (encList encPair ip.properties ++ r))) := by
    simp [encIndexable, List.append_assoc]
  rw [h1]
  simp only [decIndexable, encDec_boundingRect ip.bbox _, encDec_pt ip.centroid _,
    encDec_area ip.area _, encDec_list encPair decPair encDec_pair ip.properties r]

theorem decodeFinder_encodeFinder (finder : PolygonFinder) :
    decodeFinder (encodeFinder finder) = some (finder, []) := by
  have h1 : encodeFinder finder =
      encList encIndexable finder.tree ++ (encNat finder.neighbors_tests ++ []) := by
    simp [encodeFinder]
  rw [h1]
  simp only [decodeFinder,
    encDec_list encIndexable decIndexable encDec_indexable finder.tree _,
    encDec_nat finder.neighbors_tests []]

/-- C3: deserializing the serialized form of any index yields an index that
answers every `find` query identically, and the `K` fan-out value
(`neighbors_tests`) is part of the serialized state (it is written to the
stream and restored by the decoder). -/
theorem index_codec_roundtrip (E : ExtLib) (finder : PolygonFinder) :
    ∃ finder2,
      decodeFinder (encodeFinder finder) = some (finder2, []) ∧
        finder2.neighbors_tests = finder.neighbors_tests ∧
        (∀ p : Pt, finder2.find_by_point E p = finder.find_by_point E p) ∧
        Tok.nat finder.neighbors_tests ∈ encodeFinder finder :=
  ⟨finder, decodeFinder_encodeFinder finder, rfl, fun _ => rfl,
    by simp [encodeFinder, encNat]⟩

/-- C4 counterexample: with `write_status = false` and an unparseable
latitude field, the produced row still ends with the `"error"` status
field, contradicting the claim that the status is appended only when
`write_status` is true; `fill_error_row` appends it unconditionally. -/
theorem coord_error_status_unconditional_cex :
    processRecord extLib0 finderUnit ["name"] 0 1 false ["a", "b"] =
      (["a", "b", "", "error"], true) := rfl

/-- C4 (amended): for a data row whose latitude or longitude field is
missing or unparseable, the loop counts one error row, appends exactly one
empty field per requested property followed by the `"error"` status field
(unconditionally, whatever `write_status` is), writes the row, and
continues with the remaining rows. -/
theorem coord_error_row_handling (E : ExtLib) (finder : PolygonFinder)
    (properties : List String) (li lo : Nat) (ws : Bool) (writeOk : Nat → Bool) (w : Nat)
    (record : List String) (rest : List (Except Unit (List String)))
    (hcoord : (record.get? li).bind E.parseDouble = none ∨
      (record.get? lo).bind E.parseDouble = none)
    (hw : writeOk w = true) :
    joinLoop E finder properties li lo ws writeOk w (.ok record :: rest) =
      (⟨(joinLoop E finder properties li lo ws writeOk (w + 1) rest).1.total_lines + 1,
        (joinLoop E finder properties li lo ws writeOk (w + 1) rest).1.error_lines + 1⟩,
       (record ++ (List.replicate properties.length "" ++ ["error"]))
         :: (joinLoop E finder properties li lo ws writeOk (w + 1) rest).2.1,
       (joinLoop E finder properties li lo ws writeOk (w + 1) rest).2.2) := by
  have hpr : processRecord E finder properties li lo ws record =
      (record ++ (List.replicate properties.length "" ++ ["error"]), true) := by
    rcases hcoord with h | h
    · simp only [processRecord, h, fill_error_row]
    · simp only [processRecord, h, fill_error_row]
      cases (record.get? li).bind E.parseDouble <;> rfl
  simp only [joinLoop, hpr, hw, if_true]

/-- Witness for C4: one unparseable row against the one-feature index. -/
theorem coord_error_row_handling_witness :
    ((["x"].get? 0).bind extLib0.parseDouble = none ∨
      (["x"].get? 1).bind extLib0.parseDouble = none) ∧
      joinLoop extLib0 finderUnit ["name"] 0 1 true (fun _ => true) 0 [.ok ["x"]] =
        (⟨1, 1⟩, [["x", "", "error"]], []) := by
  refine ⟨Or.inl rfl, ?_⟩
  have h := coord_error_row_handling extLib0 finderUnit ["name"] 0 1 true (fun _ => true) 0
    ["x"] [] (Or.inl rfl) rfl
  rw [h]
  rfl

/-- C5: for a row whose coordinates parse but whose point matches no
feature (`find` returns `None`), the row is flagged as an error row; with
`write_status` it gains one empty field per requested property plus the
`"error"` status, and without `write_status` it is passed through
unmodified, with no appended columns. -/
theorem find_miss_row_handling (E : ExtLib) (finder : PolygonFinder)
    (properties : List String) (li lo : Nat) (ws : Bool) (record : List String)
    (la lon : ℚ)
    (hla : (record.get? li).bind E.parseDouble = some la)
    (hlon : (record.get? lo).bind E.parseDouble = some lon)
    (hmiss : finder.find E la lon = none) :
    processRecord E finder properties li lo ws record =
      ((if ws then record ++ (List.replicate properties.length "" ++ ["error"]) else record),
        true) := by
  simp only [processRecord, hla, hlon, hmiss, fill_error_row]
  cases ws <;> simp

/-- Witness for C5: a parsed row against the empty index. -/
theorem find_miss_row_handling_witness :
    ((["a", "b"].get? 0).bind extLib1.parseDouble = some 0) ∧
      ((["a", "b"].get? 1).bind extLib1.parseDouble = some 0) ∧
      finderEmpty.find extLib1 0 0 = none ∧
      processRecord extLib1 finderEmpty ["name"] 0 1 false ["a", "b"] = (["a", "b"], true) := by
  refine ⟨rfl, rfl, rfl, ?_⟩
  have h := find_miss_row_handling extLib1 finderEmpty ["name"] 0 1 false ["a", "b"] 0 0
    rfl rfl rfl
  simpa using h

theorem new_from_geojson_k (E : ExtLib) (gj : GeoJsonAst) (f : PolygonFinder)
    (h : PolygonFinder.new_from_geojson E gj = .ok (.ok f)) : f.neighbors_tests = 10 := by
  cases gj with
  | otherDocument => simp [PolygonFinder.new_from_geojson] at h
  | featureCollection feats =>
    simp only [PolygonFinder.new_from_geojson] at h
    cases hb : buildPolygons E feats with
    | panic => rw [hb] at h; simp at h
    | ok r =>
      cases r with
      | error e => rw [hb] at h; simp at h
      | ok ips =>
        rw [hb] at h
        simp only [PanicOr.ok.injEq, Except.ok.injEq] at h
        rw [← h]

theorem new_from_string_k (E : ExtLib) (s : String) (f : PolygonFinder)
    (h : PolygonFinder.new_from_string E s = .ok (.ok f)) : f.neighbors_tests = 10 := by
  simp only [PolygonFinder.new_from_string] at h
  cases hp : E.parseGeoJson s with
  | error e => rw [hp] at h; simp at h
  | ok gj => rw [hp] at h; exact new_from_geojson_k E gj f h

/-- C6 counterexample: the fan-out is not configurable at construction
time; no GeoJSON input and no implementation of the external libraries can
construct a finder whose `neighbors_tests` differs from 10. -/
theorem neighbors_tests_not_configurable_cex :
    ¬ ∃ (E : ExtLib) (s : String) (f : PolygonFinder),
        PolygonFinder.new_from_string E s = .ok (.ok f) ∧ f.neighbors_tests ≠ 10 := by
  rintro ⟨E, s, f, hok, hne⟩
  exact hne (new_from_string_k E s f hok)

/-- C6 (amended): the number `K` of nearest-neighbor candidates that `find`
retrieves is the constant 10: every successfully constructed finder has
`neighbors_tests = 10` (the value is a literal in `new_from_string`, with
no constructor parameter to change it), and `find_by_point` fans out over
exactly those 10 nearest candidates. -/
theorem neighbors_tests_fixed (E : ExtLib) (s : String) (f : PolygonFinder)
    (h : PolygonFinder.new_from_string E s = .ok (.ok f)) :
    f.neighbors_tests = 10 ∧
      (∀ p, f.find_by_point E p = findLoop E p (nearest_n_neighbors f.tree p 10)) := by
  have hk := new_from_string_k E s f h
  exact ⟨hk, fun p => by rw [PolygonFinder.find_by_point, hk]⟩

/-- Witness for C6: building from an (abstractly parsed) empty feature
collection yields the empty finder with fan-out 10. -/
theorem neighbors_tests_fixed_witness :
    PolygonFinder.new_from_string extLib1 "" = .ok (.ok finderEmpty) ∧
      finderEmpty.neighbors_tests = 10 ∧
      (∀ p, finderEmpty.find_by_point extLib1 p =
        findLoop extLib1 p (nearest_n_neighbors finderEmpty.tree p 10)) := by
  have hok : PolygonFinder.new_from_string extLib1 "" = .ok (.ok finderEmpty) := rfl
  obtain ⟨h1, h2⟩ := neighbors_tests_fixed extLib1 "" finderEmpty hok
  exact ⟨hok, h1, h2⟩

theorem joinLoop_stats (E : ExtLib) (finder : PolygonFinder) (properties : List String)
    (li lo : Nat) (ws : Bool) (writeOk : Nat → Bool)
    (input : List (Except Unit (List String))) (w : Nat) :
    (joinLoop E finder properties li lo ws writeOk w input).1.error_lines ≤
      (joinLoop E finder properties li lo ws writeOk w input).1.total_lines ∧
      (joinLoop E finder properties li lo ws writeOk w input).1.total_lines +
        (joinLoop E finder properties li lo ws writeOk w input).2.2.length = input.length := by
  induction input generalizing w with
  | nil => simp [joinLoop]
  | cons hd tl ih =>
    cases hd with
    | error e =>
      obtain ⟨h1, h2⟩ := ih w
      simp only [joinLoop, List.length_cons]
      constructor
      · omega
      · omega
    | ok record =>
      by_cases hw : writeOk w = true
      · obtain ⟨h1, h2⟩ := ih (w + 1)
        have hle : (if (processRecord E finder properties li lo ws record).2
            then 1 else 0) ≤ 1 := by
          split
          · exact le_refl 1
          · exact Nat.zero_le 1
        simp only [joinLoop, hw, if_true, List.length_cons]
        constructor
        · omega
        · omega
      · have hw2 : writeOk w = false := by
          cases hfw : writeOk w
          · rfl
          · exact absurd hfw hw
        have hle : (if (processRecord E finder properties li lo ws record).2
            then 1 else 0) ≤ 1 := by
          split
          · exact le_refl 1
          · exact Nat.zero_le 1
        simp only [joinLoop, hw2, Bool.false_eq_true, if_false, List.length_cons]
        constructor
        · omega
        · omega

/-- C7: for every join run, `error_lines` never exceeds `total_lines`, and
`total_lines` equals the number of non-header data rows consumed from the
input (the rows of the input minus the header, minus whatever the loop
left unconsumed after a write failure); each consumed data row adds
exactly one to `total_lines` and at most one to `error_lines`. -/
theorem join_stats_invariant (E : ExtLib) (finder : PolygonFinder)
    (input : List (Except Unit (List String))) (properties : List String)
    (li lo : Nat) (no_header ws : Bool) (writeOk : Nat → Bool) :
    (spatial_polygons_join E finder input properties li lo no_header ws writeOk).1.error_lines ≤
      (spatial_polygons_join E finder input properties li lo no_header ws writeOk).1.total_lines ∧
      (spatial_polygons_join E finder input properties li lo no_header ws writeOk).1.total_lines +
        (spatial_polygons_join E finder input properties li lo
          no_header ws writeOk).2.2.length = dataRowCount no_header input := by
  cases no_header with
  | false =>
    cases input with
    | nil => simp [spatial_polygons_join, dataRowCount]
    | cons hd tl =>
      cases hd with
      | error e =>
        simpa [spatial_polygons_join, dataRowCount] using
          joinLoop_stats E finder properties li lo ws writeOk tl 0
      | ok header =>
        simpa [spatial_polygons_join, dataRowCount] using
          joinLoop_stats E finder properties li lo ws writeOk tl 1
  | true =>
    simpa [spatial_polygons_join, dataRowCount] using
      joinLoop_stats E finder properties li lo ws writeOk input 0

/-- C8 is violated by the code: build-path I/O failures are not surfaced as
error values.  `PolygonFinder::new` unwraps the `File::open` result and
panics on failure; a `read_to_string` failure is discarded by `let _ = ...`,
so the build proceeds on the empty buffer and any error it reports comes
from the GeoJSON parse, not from the I/O failure; `save_geo_index` unwraps
both `File::create` and the bincode write.  The never-constructed
`PolygonFinderError::Io` variant marks the intended error path. -/
theorem build_io_failure_panics :
    PolygonFinder.new extLib0 (fun _ => .error .ioError) "states.geojson" = .panic ∧
      save_geo_index (fun _ => .error .ioError) finderUnit "geo.idx.bin" = .panic ∧
      save_geo_index (fun _ => .ok (fun _ => .error .ioError)) finderUnit "geo.idx.bin" =
        .panic ∧
      PolygonFinder.new extLib0 (fun _ => .ok (.error .ioError)) "states.geojson" =
        PolygonFinder.new_from_string extLib0 "" :=
  ⟨rfl, rfl, rfl, rfl⟩

/-- Conditions under which the geometry half of `IndexablePolygon::new`
succeeds: the coordinates convert, the geometry has a bounding rectangle,
and its centroid is defined (so the final unwrap cannot panic). -/
def geometryBuildOk (E : ExtLib) : GeomValue → Prop
  | .polygonCoords c => ∃ pg, E.tryIntoPolygon c = .ok pg ∧
      (boundingRectOfPoints pg.exterior).isSome = true ∧
      (E.polyCentroid pg).isSome = true
  | .multiPolygonCoords c => ∃ pgs, E.tryIntoMultiPolygon c = .ok pgs ∧
      (boundingRectOfPoints (pgs.flatMap (fun pg => pg.exterior))).isSome = true ∧
      (E.multiPolyCentroid pgs).isSome = true
  | .pointCoords c => ∃ p, E.tryIntoPoint c = .ok p
  | .otherGeom => False

/-- C9: a feature carrying a valid geometry but no `properties` member is
accepted by `IndexablePolygon::new`: it yields an indexable feature whose
property map is empty, rather than any error. -/
theorem feature_without_properties_accepted (E : ExtLib) (g : Geometry)
    (hgeom : geometryBuildOk E g.value) :
    ∃ ip, IndexablePolygon.new E ⟨some g, none⟩ = .ok (.ok ip) ∧ ip.properties = [] := by
  obtain ⟨v⟩ := g
  cases v with
  | polygonCoords c =>
    obtain ⟨pg, hok, hmbr, hcent⟩ := hgeom
    obtain ⟨rect, hrect⟩ := Option.isSome_iff_exists.mp hmbr
    obtain ⟨cpt, hcpt⟩ := Option.isSome_iff_exists.mp hcent
    refine ⟨⟨BoundingRect.from_corners rect.min rect.max, cpt, .polygon pg, []⟩, ?_, rfl⟩
    simp [IndexablePolygon.new, hok, Area.mbr, hrect, propsFromJson, Area.centroid, hcpt]
  | multiPolygonCoords c =>
    obtain ⟨pgs, hok, hmbr, hcent⟩ := hgeom
    obtain ⟨rect, hrect⟩ := Option.isSome_iff_exists.mp hmbr
    obtain ⟨cpt, hcpt⟩ := Option.isSome_iff_exists.mp hcent
    refine ⟨⟨BoundingRect.from_corners rect.min rect.max, cpt, .multiPolygon pgs, []⟩, ?_, rfl⟩
    simp [IndexablePolygon.new, hok, Area.mbr, hrect, propsFromJson, Area.centroid, hcpt]
  | pointCoords c =>
    obtain ⟨p, hok⟩ := hgeom
    refine ⟨⟨BoundingRect.from_corners p p, p, .point p, []⟩, ?_, rfl⟩
    simp [IndexablePolygon.new, hok, Area.mbr, propsFromJson, Area.centroid]
  | otherGeom => exact absurd hgeom id

/-- Witness for C9: a point feature without properties. -/
theorem feature_without_properties_accepted_witness :
    geometryBuildOk extLib0 (GeomValue.pointCoords [1, 2]) ∧
      ∃ ip, IndexablePolygon.new extLib0 ⟨some ⟨GeomValue.pointCoords [1, 2]⟩, none⟩ =
        .ok (.ok ip) ∧ ip.properties = [] := by
  have hgeom : geometryBuildOk extLib0 (GeomValue.pointCoords [1, 2]) := ⟨⟨1, 2⟩, rfl⟩
  exact ⟨hgeom,
    feature_without_properties_accepted extLib0 ⟨GeomValue.pointCoords [1, 2]⟩ hgeom⟩

/-- C10: with a header configured (`no_header = false`), an input whose
first row fails to read makes the engine write no header row, count that
row in neither `total_lines` nor `error_lines`, and process the remaining
rows exactly as the data loop does; an empty input likewise produces no
header row, no output rows and zero counts. -/
theorem header_read_failure_skipped (E : ExtLib) (finder : PolygonFinder)
    (properties : List String) (li lo : Nat) (ws : Bool) (writeOk : Nat → Bool)
    (rest : List (Except Unit (List String))) :
    spatial_polygons_join E finder (.error () :: rest) properties li lo false ws writeOk =
      joinLoop E finder properties li lo ws writeOk 0 rest ∧
      spatial_polygons_join E finder [] properties li lo false ws writeOk =
        (⟨0, 0⟩, [], []) :=
  ⟨rfl, rfl⟩

end SpatialJoin